import Mathlib

/-!
Shallow embedding of the Teacher Assistant Chatbot service (src/main.py).

The service keeps a process-wide conversation store keyed by the request's
instructor identifier, seeds each new conversation with a system prompt built
from a fetched instructor-profile document, appends the user message, calls a
remote completion API, and appends the assistant reply.

Modelling decisions:
- A profile document is kept opaque, as the string that `json.dumps(doc, indent=2)`
  would produce (the code never inspects the document's structure).
- The two outbound HTTP effects are passed in explicitly: `net` maps the URL of
  a GET request to its outcome, and `complete` maps the sent message list to the
  completion outcome. This makes every code path a pure function of its inputs.
- Python's `Optional[int]` field (which may hold `None` when the JSON body sets
  the field to null) is `Option Int`; the dictionary key type of the store is
  the same `Option Int`.
- A raised `HTTPException` is an `Except.error` carrying status code and detail.
-/

/-- A chat message: a (role, content) pair as stored in the conversation list. -/
structure Message where
  role : String
  content : String
deriving DecidableEq

/-- Session keys: the value of `request.instructor_id`, which is `Optional[int]`
in Python (so `none` models Python's `None`). -/
abbrev SessionKey := Option Int

/-- The process-wide store `conversations: Dict[int, List[Dict[str, str]]]`,
modelled as a partial map from keys to message lists. -/
abbrev Conversations := SessionKey → Option (List Message)

/-- Pointwise update of the store: `conversations[k] = v`. -/
def Conversations.set (c : Conversations) (k : SessionKey) (v : List Message) :
    Conversations :=
  fun k2 => if k2 = k then some v else c k2

/-- The store at process start: empty dictionary. -/
def emptyConversations : Conversations := fun _ => none

/-- Outcome of the HTTP GET performed by `fetch_instructor_profile`:
success with a JSON document, an `httpx.RequestError` (network failure),
or an `httpx.HTTPStatusError` (non-success status) with status and body. -/
inductive FetchResult where
  | ok (doc : String)
  | requestError (msg : String)
  | statusError (status : Nat) (body : String)
deriving DecidableEq

/-- Outcome of the Groq chat-completion call. -/
inductive CompletionResult where
  | ok (text : String)
  | err (msg : String)
deriving DecidableEq

/-- A raised `fastapi.HTTPException`: status code and detail string. -/
structure HTTPError where
  status : Nat
  detail : String
deriving DecidableEq

/-- The request body of `POST /chat` as parsed by pydantic into `ChatRequest`:
`message: str` and `instructor_id: Optional[int] = 24775`. -/
structure ChatRequest where
  message : String
  instructor_id : Option Int
deriving DecidableEq

/-- A raw JSON request body before pydantic validation. `profile_url` is a field
a client may send but which does not occur in the `ChatRequest` model;
`instructor_id` distinguishes an absent field (`none`), an explicit null
(`some none`) and an explicit integer (`some (some n)`). -/
structure RawChatRequest where
  message : String
  profile_url : Option String
  instructor_id : Option (Option Int)
deriving DecidableEq

/-- Pydantic parsing of the raw body into `ChatRequest`: unknown fields such as
`profile_url` are ignored, and an absent `instructor_id` takes the declared
default `24775`. -/
def parseChatRequest (r : RawChatRequest) : ChatRequest :=
  { message := r.message, instructor_id := r.instructor_id.getD (some 24775) }

/-- Python's `str` of an `Optional[int]` as interpolated into an f-string. -/
def pyOptIntStr : Option Int → String
  | some n => toString n
  | none => "None"

/-- The URL built in `fetch_instructor_profile`:
`f"https://ace.prismaticcrm.com/api/instructor-profile/{instructor_id}"`. -/
def profileUrl (instructor_id : Option Int) : String :=
  "https://ace.prismaticcrm.com/api/instructor-profile/" ++ pyOptIntStr instructor_id

/-- `fetch_instructor_profile`: GET the profile URL; on success return the JSON
body; an `httpx.RequestError` becomes a 500 `HTTPException`; an
`httpx.HTTPStatusError` (raised by `raise_for_status`) becomes an
`HTTPException` with the upstream status and a detail embedding the body. -/
def fetch_instructor_profile (instructor_id : Option Int)
    (net : String → FetchResult) : Except HTTPError String :=
  match net (profileUrl instructor_id) with
  | FetchResult.ok doc => Except.ok doc
  | FetchResult.requestError m =>
      Except.error ⟨500, "Error fetching instructor profile: " ++ m⟩
  | FetchResult.statusError s b =>
      Except.error ⟨s, "API returned error: " ++ b⟩

/-- `create_system_prompt`: the fixed f-string template with the pretty-printed
profile JSON spliced in. `instructor_json` stands for
`json.dumps(instructor_data, indent=2)`. -/
def create_system_prompt (instructor_json : String) : String :=
  "\n    You are an AI assistant helping a teacher and replying to queries relevant to their teaching.\n    Guide them using professional, supportive, and actionable advice.\n\n    Use the following instructor profile data (JSON) to answer questions:\n\n    "
  ++ instructor_json
  ++ "\n\n    Rules:\n    - Remember the conversation history to maintain context.\n    - Only use information from this JSON or previous messages when answering.\n    - Do not make up details that are not in the JSON or history.\n    - If the JSON or history does not contain the answer, say \"That information is not available in the profile.\"\n    - Keep answers short, professional, and directly based on JSON values.\n    "

/-- Lines 67-71 of `generate_chat_response`: if the key is absent from the
store, create its conversation holding exactly one system message built from
the fetched profile data; otherwise leave the store untouched. -/
def seed_conversation (instructor_id : SessionKey) (instructor_data : String)
    (c : Conversations) : Conversations :=
  match c instructor_id with
  | some _ => c
  | none =>
      c.set instructor_id [Message.mk "system" (create_system_prompt instructor_data)]

/-- `generate_chat_response`: seed the conversation if new, append the user
message, call the completion API on the accumulated list; on success append the
assistant reply and return its text, on failure raise a 500 `HTTPException`
(the user message, and any seeding, remain appended — the `except` clause does
not undo the mutations already performed). Returns the response together with
the store after the call. -/
def generate_chat_response (message : String) (instructor_id : SessionKey)
    (instructor_data : String) (complete : List Message → CompletionResult)
    (conversations : Conversations) :
    Except HTTPError String × Conversations :=
  let seeded := seed_conversation instructor_id instructor_data conversations
  let with_user := (seeded instructor_id).getD [] ++ [Message.mk "user" message]
  match complete with_user with
  | CompletionResult.ok text =>
      (Except.ok text,
        seeded.set instructor_id (with_user ++ [Message.mk "assistant" text]))
  | CompletionResult.err m =>
      (Except.error ⟨500, "Error generating response: " ++ m⟩,
        seeded.set instructor_id with_user)

/-- The `POST /chat` handler `chat_with_teacher_assistant`: fetch the profile
for `request.instructor_id`; if the fetch raises, the exception propagates and
the store is untouched; otherwise run `generate_chat_response`. -/
def chat_with_teacher_assistant (request : ChatRequest)
    (net : String → FetchResult) (complete : List Message → CompletionResult)
    (conversations : Conversations) :
    Except HTTPError String × Conversations :=
  match fetch_instructor_profile request.instructor_id net with
  | Except.error e => (Except.error e, conversations)
  | Except.ok doc =>
      generate_chat_response request.message request.instructor_id doc complete
        conversations

/-- One fully successful chat turn for key `iid`: the profile fetch returns
`doc` and the completion returns `reply`. Yields the store after the turn. -/
def chatTurn (iid : SessionKey) (msg doc reply : String) (c : Conversations) :
    Conversations :=
  (chat_with_teacher_assistant ⟨msg, iid⟩ (fun _ => FetchResult.ok doc)
    (fun _ => CompletionResult.ok reply) c).2

/-- `n` consecutive fully successful chat turns for key `iid`; turn `i` (from 0)
fetches document `docs i`, sends message `msgs i` and receives `replies i`. -/
def runTurns (iid : SessionKey) (docs msgs replies : Nat → String) :
    Nat → Conversations → Conversations
  | 0, c => c
  | n + 1, c =>
      chatTurn iid (msgs n) (docs n) (replies n) (runTurns iid docs msgs replies n c)

/-- The user/assistant message pairs of the first `n` turns, in order. -/
def turnsList (msgs replies : Nat → String) : Nat → List Message
  | 0 => []
  | n + 1 =>
      turnsList msgs replies n
        ++ [Message.mk "user" (msgs n), Message.mk "assistant" (replies n)]

/-- States of the conversation store reachable from process start by any
sequence of `POST /chat` requests, with arbitrary outcomes of the two outbound
calls (so both successful and failed turns are covered). -/
inductive Reachable : Conversations → Prop where
  | init : Reachable emptyConversations
  | step (request : ChatRequest) (net : String → FetchResult)
      (complete : List Message → CompletionResult) (c : Conversations) :
      Reachable c →
      Reachable (chat_with_teacher_assistant request net complete c).2

/-- Well-formedness of one stored conversation: every role is one of system,
user, assistant; the list starts with a system message; and no later message
has the system role. -/
def GoodList (l : List Message) : Prop :=
  (∀ m ∈ l, m.role = "system" ∨ m.role = "user" ∨ m.role = "assistant")
  ∧ ∃ s rest, l = Message.mk "system" s :: rest ∧ ∀ m ∈ rest, m.role ≠ "system"

/-- Well-formedness of the whole store: every existing conversation is good. -/
def GoodStore (c : Conversations) : Prop :=
  ∀ k l, c k = some l → GoodList l

theorem set_self (c : Conversations) (k : SessionKey) (v : List Message) :
    (c.set k v) k = some v := by
  simp [Conversations.set]

theorem set_other (c : Conversations) (k k2 : SessionKey) (v : List Message)
    (h : k2 ≠ k) : (c.set k v) k2 = c k2 := by
  simp [Conversations.set, h]

theorem seed_of_absent (iid : SessionKey) (d : String) (c : Conversations)
    (h : c iid = none) :
    seed_conversation iid d c
      = c.set iid [Message.mk "system" (create_system_prompt d)] := by
  simp [seed_conversation, h]

theorem seed_of_present (iid : SessionKey) (d : String) (c : Conversations)
    (l : List Message) (h : c iid = some l) :
    seed_conversation iid d c = c := by
  simp [seed_conversation, h]

theorem seed_frame (iid : SessionKey) (d : String) (c : Conversations)
    (k : SessionKey) (h : k ≠ iid) :
    (seed_conversation iid d c) k = c k := by
  unfold seed_conversation
  cases c iid with
  | none => exact set_other c iid k _ h
  | some l => rfl

theorem generate_frame (msg : String) (iid : SessionKey) (data : String)
    (complete : List Message → CompletionResult) (c : Conversations)
    (k : SessionKey) (h : k ≠ iid) :
    (generate_chat_response msg iid data complete c).2 k = c k := by
  unfold generate_chat_response
  cases hcomp : complete ((seed_conversation iid data c iid).getD []
      ++ [Message.mk "user" msg]) with
  | ok t =>
      simp only [hcomp]
      rw [set_other _ _ _ _ h, seed_frame _ _ _ _ h]
  | err m =>
      simp only [hcomp]
      rw [set_other _ _ _ _ h, seed_frame _ _ _ _ h]

theorem generate_at_key (msg : String) (iid : SessionKey) (data : String)
    (complete : List Message → CompletionResult) (c : Conversations) :
    ∃ extra, (∀ m ∈ extra, m.role = "user" ∨ m.role = "assistant")
    ∧ (generate_chat_response msg iid data complete c).2 iid
        = some (((seed_conversation iid data c) iid).getD [] ++ extra) := by
  unfold generate_chat_response
  cases hcomp : complete ((seed_conversation iid data c iid).getD []
      ++ [Message.mk "user" msg]) with
  | ok t =>
      refine ⟨[Message.mk "user" msg, Message.mk "assistant" t], by simp, ?_⟩
      simp only [hcomp]
      rw [set_self]
      simp
  | err m =>
      refine ⟨[Message.mk "user" msg], by simp, ?_⟩
      simp only [hcomp]
      rw [set_self]

theorem generate_snd_existing (msg : String) (iid : SessionKey) (data : String)
    (complete : List Message → CompletionResult) (c : Conversations)
    (l : List Message) (h : c iid = some l) :
    ∃ extra, (∀ m ∈ extra, m.role = "user" ∨ m.role = "assistant")
    ∧ (generate_chat_response msg iid data complete c).2 iid = some (l ++ extra) := by
  obtain ⟨extra, hroles, heq⟩ := generate_at_key msg iid data complete c
  refine ⟨extra, hroles, ?_⟩
  rw [heq, seed_of_present iid data c l h, h]
  simp

theorem chatTurn_existing (iid : SessionKey) (msg doc reply : String)
    (c : Conversations) (l : List Message) (h : c iid = some l) :
    chatTurn iid msg doc reply c iid
      = some (l ++ [Message.mk "user" msg, Message.mk "assistant" reply]) := by
  unfold chatTurn chat_with_teacher_assistant fetch_instructor_profile
  simp only [generate_chat_response, seed_of_present iid doc c l h, h,
    Option.getD_some]
  rw [set_self]
  simp

theorem chatTurn_absent (iid : SessionKey) (msg doc reply : String)
    (c : Conversations) (h : c iid = none) :
    chatTurn iid msg doc reply c iid
      = some [Message.mk "system" (create_system_prompt doc),
              Message.mk "user" msg, Message.mk "assistant" reply] := by
  unfold chatTurn chat_with_teacher_assistant fetch_instructor_profile
  simp [generate_chat_response, seed_of_absent iid doc c h, Conversations.set]

theorem GoodList_append (l extra : List Message) (hl : GoodList l)
    (hextra : ∀ m ∈ extra, m.role = "user" ∨ m.role = "assistant") :
    GoodList (l ++ extra) := by
  obtain ⟨hroles, s, rest, hcons, hrest⟩ := hl
  refine ⟨?_, s, rest ++ extra, ?_, ?_⟩
  · intro m hm
    rcases List.mem_append.mp hm with hm | hm
    · exact hroles m hm
    · rcases hextra m hm with h | h
      · exact Or.inr (Or.inl h)
      · exact Or.inr (Or.inr h)
  · rw [hcons]
    simp
  · intro m hm
    rcases List.mem_append.mp hm with hm | hm
    · exact hrest m hm
    · rcases hextra m hm with h | h <;> simp [h]

theorem generate_preserves_good (msg : String) (iid : SessionKey) (data : String)
    (complete : List Message → CompletionResult) (c : Conversations)
    (h : GoodStore c) :
    GoodStore (generate_chat_response msg iid data complete c).2 := by
  intro k l hk
  by_cases hkey : k = iid
  · subst hkey
    obtain ⟨extra, hroles, heq⟩ := generate_at_key msg k data complete c
    rw [heq] at hk
    injection hk with hk
    subst hk
    cases hbase : c k with
    | none =>
        rw [seed_of_absent k data c hbase, set_self, Option.getD_some]
        refine GoodList_append _ _ ?_ hroles
        exact ⟨by simp, create_system_prompt data, [], rfl, by simp⟩
    | some oldl =>
        rw [seed_of_present k data c oldl hbase, hbase, Option.getD_some]
        exact GoodList_append _ _ (h k oldl hbase) hroles
  · rw [generate_frame msg iid data complete c k hkey] at hk
    exact h k l hk

theorem chat_preserves_good (request : ChatRequest) (net : String → FetchResult)
    (complete : List Message → CompletionResult) (c : Conversations)
    (h : GoodStore c) :
    GoodStore (chat_with_teacher_assistant request net complete c).2 := by
  unfold chat_with_teacher_assistant
  cases fetch_instructor_profile request.instructor_id net with
  | error e => exact h
  | ok doc => exact generate_preserves_good _ _ _ _ _ h

/-- C1: for every session key, after N fully successful chat turns (profile
fetch and completion both succeed every time) starting from a store in which
the key is absent, the stored message list is exactly one system message
followed by user/assistant pairs in turn order. -/
theorem session_message_order (iid : SessionKey) (docs msgs replies : Nat → String)
    (c0 : Conversations) (h : c0 iid = none) (n : Nat) :
    runTurns iid docs msgs replies (n + 1) c0 iid
      = some (Message.mk "system" (create_system_prompt (docs 0))
          :: turnsList msgs replies (n + 1)) := by
  induction n with
  | zero =>
      show chatTurn iid (msgs 0) (docs 0) (replies 0) (runTurns iid docs msgs replies 0 c0) iid = _
      rw [show runTurns iid docs msgs replies 0 c0 = c0 from rfl,
        chatTurn_absent iid (msgs 0) (docs 0) (replies 0) c0 h]
      simp [turnsList]
  | succ k ih =>
      show chatTurn iid (msgs (k + 1)) (docs (k + 1)) (replies (k + 1))
          (runTurns iid docs msgs replies (k + 1) c0) iid = _
      rw [chatTurn_existing iid (msgs (k + 1)) (docs (k + 1)) (replies (k + 1))
        (runTurns iid docs msgs replies (k + 1) c0) _ ih]
      simp [turnsList]

/-- C1 witness: two concrete successful turns for key 1 from the empty store. -/
theorem session_message_order_witness :
    emptyConversations (some 1) = none
    ∧ runTurns (some 1) (fun _ => "docA") (fun i => toString i)
        (fun i => "r" ++ toString i) 2 emptyConversations (some 1)
      = some (Message.mk "system" (create_system_prompt "docA")
          :: turnsList (fun i => toString i) (fun i => "r" ++ toString i) 2) :=
  ⟨rfl, session_message_order (some 1) (fun _ => "docA") (fun i => toString i)
    (fun i => "r" ++ toString i) emptyConversations rfl 1⟩

/-- C2: for a key absent from the store, seeding creates a conversation holding
exactly one system message built from the fetched profile document (this is the
state just before the user message is appended); and any later turn on an
existing conversation only appends non-system messages after the existing list,
whatever profile document that turn fetched. -/
theorem first_turn_seeds_once_and_system_stable (iid : SessionKey)
    (doc : String) (c0 : Conversations) (h : c0 iid = none)
    (c : Conversations) (l : List Message) (doc2 msg : String)
    (complete : List Message → CompletionResult) (hc : c iid = some l) :
    (seed_conversation iid doc c0) iid
        = some [Message.mk "system" (create_system_prompt doc)]
    ∧ ∃ suffix,
        (generate_chat_response msg iid doc2 complete c).2 iid = some (l ++ suffix)
        ∧ ∀ m ∈ suffix, m.role ≠ "system" := by
  constructor
  · rw [seed_of_absent iid doc c0 h, set_self]
  · obtain ⟨extra, hroles, heq⟩ := generate_snd_existing msg iid doc2 complete c l hc
    refine ⟨extra, heq, ?_⟩
    intro m hm
    rcases hroles m hm with hr | hr <;> simp [hr]

/-- C2 witness: key 1, first turn seeded from docA on the empty store; a later
turn on the seeded store fetching docB appends only non-system messages. -/
theorem first_turn_seeds_once_and_system_stable_witness :
    emptyConversations (some 1) = none
    ∧ (emptyConversations.set (some 1)
        [Message.mk "system" (create_system_prompt "docA")]) (some 1)
      = some [Message.mk "system" (create_system_prompt "docA")]
    ∧ ((seed_conversation (some 1) "docA" emptyConversations) (some 1)
        = some [Message.mk "system" (create_system_prompt "docA")]
      ∧ ∃ suffix,
          (generate_chat_response "hi" (some 1) "docB"
            (fun _ => CompletionResult.ok "r")
            (emptyConversations.set (some 1)
              [Message.mk "system" (create_system_prompt "docA")])).2 (some 1)
            = some ([Message.mk "system" (create_system_prompt "docA")] ++ suffix)
          ∧ ∀ m ∈ suffix, m.role ≠ "system") :=
  ⟨rfl, rfl,
    first_turn_seeds_once_and_system_stable (some 1) "docA" emptyConversations rfl
      (emptyConversations.set (some 1)
        [Message.mk "system" (create_system_prompt "docA")])
      [Message.mk "system" (create_system_prompt "docA")] "docB" "hi"
      (fun _ => CompletionResult.ok "r") rfl⟩

/-- C3 counterexample: the claim says a generation failure never leaves the
user's message appended without an assistant reply. Concretely: after one
successful turn for key 1, a second turn whose completion call throws returns
the 500 generation error yet leaves the store with roles
[system, user, assistant, user] — the second user message is appended with no
assistant reply, and the session state did change. -/
theorem generation_failure_rollback_refuted :
    (generate_chat_response "again" (some 1) "docA"
        (fun _ => CompletionResult.err "boom")
        (chatTurn (some 1) "hello" "docA" "fine" emptyConversations)).1
      = Except.error ⟨500, "Error generating response: " ++ "boom"⟩
    ∧ Option.map (List.map Message.role)
        (chatTurn (some 1) "hello" "docA" "fine" emptyConversations (some 1))
      = some ["system", "user", "assistant"]
    ∧ Option.map (List.map Message.role)
        ((generate_chat_response "again" (some 1) "docA"
            (fun _ => CompletionResult.err "boom")
            (chatTurn (some 1) "hello" "docA" "fine" emptyConversations)).2 (some 1))
      = some ["system", "user", "assistant", "user"] :=
  ⟨rfl, rfl, rfl⟩

/-- C3 amended: when the completion call fails, the chat turn returns the 500
generation-failure error, but the user's message remains appended to the
session (after the seeded prefix); nothing is rolled back. -/
theorem generation_failure_keeps_user_message (msg : String) (iid : SessionKey)
    (data errMsg : String) (c : Conversations) :
    (generate_chat_response msg iid data (fun _ => CompletionResult.err errMsg) c).1
      = Except.error ⟨500, "Error generating response: " ++ errMsg⟩
    ∧ (generate_chat_response msg iid data (fun _ => CompletionResult.err errMsg) c).2 iid
      = some (((seed_conversation iid data c) iid).getD []
          ++ [Message.mk "user" msg]) := by
  constructor
  · rfl
  · show (Conversations.set _ _ _) iid = _
    rw [set_self]

/-- C4: when the profile fetch returns a non-success HTTP status, the chat call
fails with the upstream's own status code and a detail embedding the upstream
body, and the conversation store is returned unchanged (no session is
created). -/
theorem upstream_status_error_propagated (request : ChatRequest)
    (net : String → FetchResult) (complete : List Message → CompletionResult)
    (c : Conversations) (status : Nat) (body : String)
    (h : net (profileUrl request.instructor_id) = FetchResult.statusError status body) :
    chat_with_teacher_assistant request net complete c
      = (Except.error ⟨status, "API returned error: " ++ body⟩, c) := by
  unfold chat_with_teacher_assistant fetch_instructor_profile
  rw [h]

/-- C4 witness: a 404 from the remote for instructor 7 is propagated and the
empty store stays empty. -/
theorem upstream_status_error_propagated_witness :
    (fun _ => FetchResult.statusError 404 "not found")
        (profileUrl (ChatRequest.mk "hi" (some 7)).instructor_id)
      = FetchResult.statusError 404 "not found"
    ∧ chat_with_teacher_assistant ⟨"hi", some 7⟩
        (fun _ => FetchResult.statusError 404 "not found")
        (fun _ => CompletionResult.ok "r") emptyConversations
      = (Except.error ⟨404, "API returned error: " ++ "not found"⟩,
          emptyConversations) :=
  ⟨rfl, upstream_status_error_propagated ⟨"hi", some 7⟩
    (fun _ => FetchResult.statusError 404 "not found")
    (fun _ => CompletionResult.ok "r") emptyConversations 404 "not found" rfl⟩

/-- C5 counterexample: a chat request supplying no instructor_id (and no
profile_url, which is not a field of the model at all) is not rejected with a
400: pydantic fills in the default 24775, the handler proceeds to the profile
fetch (a network-error fetch outcome is observed in the result, proving the
network call is made), and with successful upstreams the call succeeds. -/
theorem missing_identifier_not_rejected :
    (parseChatRequest ⟨"hi", none, none⟩).instructor_id = some 24775
    ∧ (chat_with_teacher_assistant (parseChatRequest ⟨"hi", none, none⟩)
        (fun _ => FetchResult.ok "docA") (fun _ => CompletionResult.ok "r")
        emptyConversations).1 = Except.ok "r"
    ∧ (chat_with_teacher_assistant (parseChatRequest ⟨"hi", none, none⟩)
        (fun _ => FetchResult.requestError "down") (fun _ => CompletionResult.ok "r")
        emptyConversations).1
      = Except.error ⟨500, "Error fetching instructor profile: " ++ "down"⟩ :=
  ⟨rfl, rfl, rfl⟩

/-- C5 amended: the request model has no profile_url field, and a request
omitting instructor_id is not rejected: the field defaults to 24775 and the
request behaves exactly like one that explicitly names instructor 24775 (so no
InvalidRequest/400 validation exists). -/
theorem missing_identifier_defaults (m : String) (pu : Option String)
    (net : String → FetchResult) (complete : List Message → CompletionResult)
    (c : Conversations) :
    (parseChatRequest ⟨m, pu, none⟩).instructor_id = some 24775
    ∧ chat_with_teacher_assistant (parseChatRequest ⟨m, pu, none⟩) net complete c
      = chat_with_teacher_assistant ⟨m, some 24775⟩ net complete c :=
  ⟨rfl, rfl⟩

/-- C6 counterexample: a request body carrying both a profile_url and
instructor_id 5 does not fetch the supplied profile_url: the network function
succeeds at the supplied URL but returns 404 at the instructor-pattern URL, and
the chat call reports that 404 — so the resolved URL came from instructor_id,
not from profile_url. -/
theorem profile_url_precedence_refuted :
    (parseChatRequest ⟨"hi", some "https://x", some (some 5)⟩).instructor_id = some 5
    ∧ (chat_with_teacher_assistant
        (parseChatRequest ⟨"hi", some "https://x", some (some 5)⟩)
        (fun u => if u = "https://x" then FetchResult.ok "docP"
          else FetchResult.statusError 404 "nf")
        (fun _ => CompletionResult.ok "r") emptyConversations).1
      = Except.error ⟨404, "API returned error: " ++ "nf"⟩ :=
  ⟨rfl, rfl⟩

/-- C6 amended: ChatRequest has no profile_url field; any profile_url sent in
the request body is discarded by parsing, and the chat behaviour (hence the
resolved profile URL) depends only on the message and instructor_id. -/
theorem profile_url_not_in_model (m : String) (pu pu2 : Option String)
    (i : Option (Option Int)) (net : String → FetchResult)
    (complete : List Message → CompletionResult) (c : Conversations) :
    parseChatRequest ⟨m, pu, i⟩ = parseChatRequest ⟨m, pu2, i⟩
    ∧ chat_with_teacher_assistant (parseChatRequest ⟨m, pu, i⟩) net complete c
      = chat_with_teacher_assistant (parseChatRequest ⟨m, pu2, i⟩) net complete c :=
  ⟨rfl, rfl⟩

/-- C7: for a request with instructor_id given, the profile fetch consults the
network exactly at the fixed pattern URL with the id substituted: the built URL
equals the pattern, and two network functions agreeing at that one URL give the
same fetch outcome. -/
theorem resolved_url_pattern (id : Int) (f g : String → FetchResult)
    (h : f ("https://ace.prismaticcrm.com/api/instructor-profile/" ++ toString id)
       = g ("https://ace.prismaticcrm.com/api/instructor-profile/" ++ toString id)) :
    profileUrl (some id)
      = "https://ace.prismaticcrm.com/api/instructor-profile/" ++ toString id
    ∧ fetch_instructor_profile (some id) f = fetch_instructor_profile (some id) g := by
  refine ⟨rfl, ?_⟩
  unfold fetch_instructor_profile
  rw [show profileUrl (some id)
    = "https://ace.prismaticcrm.com/api/instructor-profile/" ++ toString id from rfl, h]

/-- C7 witness: instructor 24775 with two identical network functions. -/
theorem resolved_url_pattern_witness :
    (fun _ => FetchResult.ok "d")
        ("https://ace.prismaticcrm.com/api/instructor-profile/" ++ toString (24775 : Int))
      = (fun _ => FetchResult.ok "d")
        ("https://ace.prismaticcrm.com/api/instructor-profile/" ++ toString (24775 : Int))
    ∧ (profileUrl (some 24775)
        = "https://ace.prismaticcrm.com/api/instructor-profile/" ++ toString (24775 : Int)
      ∧ fetch_instructor_profile (some 24775) (fun _ => FetchResult.ok "d")
        = fetch_instructor_profile (some 24775) (fun _ => FetchResult.ok "d")) :=
  ⟨rfl, resolved_url_pattern 24775 (fun _ => FetchResult.ok "d")
    (fun _ => FetchResult.ok "d") rfl⟩

/-- C8: a chat turn for one request leaves every other session key's stored
history unchanged, whatever the outcomes of the outbound calls. -/
theorem distinct_keys_independent (request : ChatRequest)
    (net : String → FetchResult) (complete : List Message → CompletionResult)
    (c : Conversations) (k : SessionKey) (h : k ≠ request.instructor_id) :
    (chat_with_teacher_assistant request net complete c).2 k = c k := by
  unfold chat_with_teacher_assistant
  cases fetch_instructor_profile request.instructor_id net with
  | error e => rfl
  | ok doc => exact generate_frame request.message request.instructor_id doc complete c k h

/-- C8 witness: a successful turn for key 1 leaves key 2 absent as before. -/
theorem distinct_keys_independent_witness :
    (some 2 : SessionKey) ≠ (ChatRequest.mk "hi" (some 1)).instructor_id
    ∧ (chat_with_teacher_assistant ⟨"hi", some 1⟩ (fun _ => FetchResult.ok "docA")
        (fun _ => CompletionResult.ok "r") emptyConversations).2 (some 2)
      = emptyConversations (some 2) :=
  ⟨by decide, distinct_keys_independent ⟨"hi", some 1⟩ (fun _ => FetchResult.ok "docA")
    (fun _ => CompletionResult.ok "r") emptyConversations (some 2) (by decide)⟩

/-- C9: a chat request omitting instructor_id is processed with the default
identifier 24775: parsing fills in 24775, and (for a store where key 24775 is
absent and a network function whose answer at the 24775 pattern URL is a
successful document) the turn populates session key 24775 with the system
prompt built from that document plus the user and assistant messages. -/
theorem omitted_identifier_uses_default (m : String) (pu : Option String)
    (net : String → FetchResult) (reply doc : String) (c : Conversations)
    (hc : c (some 24775) = none)
    (hf : net (profileUrl (some 24775)) = FetchResult.ok doc) :
    (parseChatRequest ⟨m, pu, none⟩).instructor_id = some 24775
    ∧ (chat_with_teacher_assistant (parseChatRequest ⟨m, pu, none⟩) net
        (fun _ => CompletionResult.ok reply) c).2 (some 24775)
      = some [Message.mk "system" (create_system_prompt doc),
          Message.mk "user" m, Message.mk "assistant" reply] := by
  refine ⟨rfl, ?_⟩
  show (chat_with_teacher_assistant ⟨m, some 24775⟩ net
    (fun _ => CompletionResult.ok reply) c).2 (some 24775) = _
  unfold chat_with_teacher_assistant fetch_instructor_profile
  rw [hf]
  show (generate_chat_response m (some 24775) doc
    (fun _ => CompletionResult.ok reply) c).2 (some 24775) = _
  simp [generate_chat_response, seed_of_absent (some 24775) doc c hc,
    Conversations.set]

/-- C9 witness: empty store, constant successful network function. -/
theorem omitted_identifier_uses_default_witness :
    emptyConversations (some 24775) = none
    ∧ (fun _ => FetchResult.ok "docA") (profileUrl (some 24775)) = FetchResult.ok "docA"
    ∧ ((parseChatRequest ⟨"hi", none, none⟩).instructor_id = some 24775
      ∧ (chat_with_teacher_assistant (parseChatRequest ⟨"hi", none, none⟩)
          (fun _ => FetchResult.ok "docA") (fun _ => CompletionResult.ok "r")
          emptyConversations).2 (some 24775)
        = some [Message.mk "system" (create_system_prompt "docA"),
            Message.mk "user" "hi", Message.mk "assistant" "r"]) :=
  ⟨rfl, rfl, omitted_identifier_uses_default "hi" none (fun _ => FetchResult.ok "docA")
    "r" "docA" emptyConversations rfl rfl⟩

theorem reachable_good (c : Conversations) (h : Reachable c) : GoodStore c := by
  induction h with
  | init => intro k2 l2 hl2; simp [emptyConversations] at hl2
  | step request net complete c2 hc2 ih =>
      exact chat_preserves_good request net complete c2 ih

/-- C10: in every reachable state of the conversation store, every stored
message has role system, user or assistant; every existing conversation starts
with a system message; and no message after the first has the system role. -/
theorem reachable_store_well_formed (c : Conversations) (h : Reachable c)
    (k : SessionKey) (l : List Message) (hl : c k = some l) :
    (∀ m ∈ l, m.role = "system" ∨ m.role = "user" ∨ m.role = "assistant")
    ∧ ∃ s rest, l = Message.mk "system" s :: rest ∧ ∀ m ∈ rest, m.role ≠ "system" :=
  reachable_good c h k l hl

/-- C10 witness: the store after one successful turn for key 1, inspected at
key 1. -/
theorem reachable_store_well_formed_witness :
    (∀ m ∈ [Message.mk "system" (create_system_prompt "docA"),
        Message.mk "user" "hi", Message.mk "assistant" "r"],
      m.role = "system" ∨ m.role = "user" ∨ m.role = "assistant")
    ∧ ∃ s rest, [Message.mk "system" (create_system_prompt "docA"),
        Message.mk "user" "hi", Message.mk "assistant" "r"]
        = Message.mk "system" s :: rest ∧ ∀ m ∈ rest, m.role ≠ "system" :=
  reachable_store_well_formed
    (chat_with_teacher_assistant ⟨"hi", some 1⟩ (fun _ => FetchResult.ok "docA")
      (fun _ => CompletionResult.ok "r") emptyConversations).2
    (Reachable.step ⟨"hi", some 1⟩ (fun _ => FetchResult.ok "docA")
      (fun _ => CompletionResult.ok "r") emptyConversations Reachable.init)
    (some 1)
    [Message.mk "system" (create_system_prompt "docA"),
      Message.mk "user" "hi", Message.mk "assistant" "r"]
    rfl
